import Mathlib

/-! genpair: generation of a header/source file pair

A shallow embedding of `src/genpair.cpp`.

* `std::string` is `String`. `boost::to_upper` (global "C" locale) maps the
  letters `a`..`z` to `A`..`Z` and leaves every other character alone.
* The filesystem is explicit state: which file a path denotes once links are
  followed, which files exist and with what content, for which paths the
  status query of `boost::filesystem::exists` fails, which paths
  `std::ofstream` can open for output, and how much text the device stores
  when a stream on a path is flushed.
* `boost::filesystem::exists` throws `filesystem_error` when the status query
  fails for a reason other than the file being absent. `process_options`
  calls it before its `try` block and `main` catches `po::error` only, so the
  exception leaves both functions.
* `std::ofstream` buffers what `operator<<` is given and hands the buffer to
  the filesystem in `close()`. A stream that failed to open ignores output.
  Nothing in the program looks at the stream state after the constructor, so
  a flush that stores less than the buffer goes unnoticed by the code.
* `std::cout` and `std::cerr` are the texts printed so far.
* A C++ exception is the `Except.error` case, carrying `what()`.
-/

namespace Genpair

namespace return_code

def SUCCESS : Int := 0

def FAILURE_PARSE : Int := 1

def FAILURE_CREATE_FILE : Int := 2

def FAILURE_FILE_EXISTS : Int := 3

end return_code

/-! ## The environment -/

/-- State of the filesystem as the program can observe it. `target p` is the
file the path `p` denotes once links are followed (`p` itself for a plain
name). `files q` is the content of the file `q`, `none` when there is no such
file. `stat_error p` is `some what` when the status query on `p` fails for a
reason other than absence (no search permission, a name too long, a loop of
links), `what` being the text of the error. `can_open p` tells whether
`std::ofstream` can open `p` for output (creating or truncating the file).
`capacity p` bounds the number of characters the device stores when a stream
opened on `p` is flushed; `none` is a device with room. -/
structure FileSystem where
  target : String → String
  files : String → Option String
  stat_error : String → Option String
  can_open : String → Bool
  capacity : String → Option Nat

/-- The content found under the path `p`, `none` when `p` denotes no file. -/
def FileSystem.read (fs : FileSystem) (p : String) : Option String :=
  fs.files (fs.target p)

/-- The function `boost::filesystem::exists`: throws when the status query
fails, otherwise tells whether the path denotes an existing file. -/
def filesystem_exists (fs : FileSystem) (p : String) : Except String Bool :=
  match fs.stat_error p with
  | some what => Except.error what
  | none => Except.ok (fs.read p).isSome

/-- What the device keeps of `text` when a stream on path `p` is flushed. -/
def FileSystem.stored (fs : FileSystem) (p text : String) : String :=
  match fs.capacity p with
  | none => text
  | some n => ⟨text.data.take n⟩

/-- The device has room for all of `text` on path `p`. -/
def FileSystem.accepts (fs : FileSystem) (p text : String) : Bool :=
  match fs.capacity p with
  | none => true
  | some n => decide (text.length ≤ n)

/-- The filesystem with the file that `p` denotes holding `content`. -/
def FileSystem.set (fs : FileSystem) (p content : String) : FileSystem :=
  { fs with files := fun q => if q = fs.target p then some content else fs.files q }

/-- A `std::ofstream`: the path it was constructed on, whether the open
succeeded, and the text buffered so far. -/
structure ofstream where
  path : String
  is_open : Bool
  buffer : String

/-- The constructor `std::ofstream ofs(f)`: opens `f` for output, which creates
the file or truncates it. When the open fails the filesystem is untouched. -/
def ofstream.init (fs : FileSystem) (f : String) : FileSystem × ofstream :=
  if fs.can_open f then (fs.set f "", ⟨f, true, ""⟩) else (fs, ⟨f, false, ""⟩)

/-- The test `!ofs`. -/
def ofstream.fail (ofs : ofstream) : Bool :=
  !ofs.is_open

/-- The operator `ofs << s`. -/
def ofstream.put (ofs : ofstream) (s : String) : ofstream :=
  if ofs.is_open then { ofs with buffer := ofs.buffer ++ s } else ofs

/-- The call `ofs.close()`: the buffer goes to the device; no error is raised
when the device keeps less than the buffer. -/
def ofstream.close (ofs : ofstream) (fs : FileSystem) : FileSystem :=
  if ofs.is_open then fs.set ofs.path (fs.stored ofs.path ofs.buffer) else fs

/-- The function `std::toupper` in the "C" locale. -/
def toupper (c : Char) : Char :=
  if 'a' ≤ c ∧ c ≤ 'z' then Char.ofNat (c.toNat - 32) else c

/-- The function `boost::to_upper`: `toupper` on every character. -/
def to_upper (s : String) : String :=
  ⟨s.data.map toupper⟩

/-- Process state: the filesystem and the two output streams. -/
structure World where
  fs : FileSystem
  cout : String
  cerr : String

/-- The parsed command line, `po::variables_map`: `help` is
`vm.count("help") != 0`, `ns` and `cls` are the values of `--namespace` and
`--class` when given, `style` always has a value (default `"cpp"`). -/
structure variables_map where
  help : Bool
  ns : Option String
  cls : Option String
  style : String

/-! ## The program -/

/-- Lines 20-23: `!exists(a) && !exists(b)`. The second query is made only
when the first answers that `a` is absent; an exception of either query
leaves the function. -/
def check_file_can_be_created (fs : FileSystem) (a b : String) : Except String Bool :=
  match filesystem_exists fs a with
  | Except.error what => Except.error what
  | Except.ok true => Except.ok false
  | Except.ok false =>
    match filesystem_exists fs b with
    | Except.error what => Except.error what
    | Except.ok eb => Except.ok (!eb)

/-- Lines 25-48. `ns` and `cls` are `vm["namespace"]` and `vm["class"]`. -/
def build_header (f ext ns cls : String) (fs : FileSystem) : Except String FileSystem :=
  let opened := ofstream.init fs f
  let ofs := opened.2
  if ofs.fail then
    Except.error "failed to create header"
  else
    let ns_up := to_upper ns
    let cls_up := to_upper cls
    let e := to_upper ext
    let ofs := ((((((ofs.put "#ifndef ").put ns_up).put "_").put cls_up).put "_").put e).put "\n"
    let ofs := ((((((ofs.put "#define ").put ns_up).put "_").put cls_up).put "_").put e).put "\n"
    let ofs := ofs.put "\n\n"
    let ofs := ((ofs.put "namespace ").put ns).put "\n"
    let ofs := ofs.put "\x7b\n\n\n\x7d\n\n#endif\n\n"
    Except.ok (ofs.close opened.1)

/-- Lines 50-62. `ns` is `vm["namespace"]`. -/
def build_source (s h ns : String) (fs : FileSystem) : Except String FileSystem :=
  let opened := ofstream.init fs s
  let ofs := opened.2
  if ofs.fail then
    Except.error "failed to create source"
  else
    let ofs := ((ofs.put "#include \"").put h).put "\";\n"
    let ofs := (((ofs.put "\n").put "namespace ").put ns).put "\n"
    let ofs := ofs.put "\x7b\n\n\n\x7d\n\n"
    Except.ok (ofs.close opened.1)

/-- The three names `process_options` derives from class name and style. -/
structure FileNames where
  header_extension : String
  header_name : String
  source_name : String
  deriving DecidableEq

/-- Lines 67-86 of `process_options`: the chain of comparisons on `style`. -/
def process_options.names (fn style : String) : FileNames :=
  if style = "cc" then
    let header_extension := "h"
    ⟨header_extension, fn ++ "." ++ header_extension, fn ++ ".cc"⟩
  else if style = "cxx" then
    let header_extension := "hxx"
    ⟨header_extension, fn ++ "." ++ header_extension, fn ++ ".cxx"⟩
  else
    let header_extension := "hpp"
    ⟨header_extension, fn ++ "." ++ header_extension, fn ++ ".cpp"⟩

/-- Lines 64-102. `ns`, `fn` and `style` are `vm["namespace"]`, `vm["class"]`
and `vm["style"]`. The first component is the returned code, or the exception
that leaves the function: the check of line 88 is outside the `try` of line
93. The second component is the state left. An exception of `build_source`
leaves what `build_header` did in place. -/
def process_options (ns fn style : String) (w : World) : Except String Int × World :=
  let names := process_options.names fn style
  match check_file_can_be_created w.fs names.header_name names.source_name with
  | Except.error what => (Except.error what, w)
  | Except.ok false =>
    (Except.ok return_code.FAILURE_FILE_EXISTS,
      { w with cerr := w.cerr ++ "one of the files exists\n" })
  | Except.ok true =>
    match build_header names.header_name names.header_extension ns fn w.fs with
    | Except.error what =>
      (Except.ok return_code.FAILURE_CREATE_FILE,
        { w with cerr := w.cerr ++ "Failed to create files " ++ what ++ "\n" })
    | Except.ok fs1 =>
      match build_source names.source_name names.header_name ns fs1 with
      | Except.error what =>
        (Except.ok return_code.FAILURE_CREATE_FILE,
          { fs := fs1, cout := w.cout, cerr := w.cerr ++ "Failed to create files " ++ what ++ "\n" })
      | Except.ok fs2 =>
        (Except.ok return_code.SUCCESS, { fs := fs2, cout := w.cout, cerr := w.cerr })

/-- Lines 104-130. `parsed` is the outcome of `po::store(po::parse_command_line
(...))`, an error standing for a thrown `po::error`; `desc` is the rendering of
the options description. The value of `process_options` is dropped (line 122)
and line 129 returns `SUCCESS`. An exception of `process_options` is no
`po::error`, so it is not caught and ends the process without an exit code of
`main`: the first component is then the error. What the runtime prints when it
ends the process is not part of `cerr` here. -/
def main (parsed : Except String variables_map) (desc : String) (w : World) :
    Except String Int × World :=
  match parsed with
  | Except.error what =>
    (Except.ok return_code.FAILURE_PARSE, { w with cerr := w.cerr ++ "ERROR: " ++ what ++ "\n" })
  | Except.ok vm =>
    match vm.help, vm.ns, vm.cls with
    | false, some ns, some cls =>
      let done := process_options ns cls vm.style w
      match done.1 with
      | Except.error what => (Except.error what, done.2)
      | Except.ok _ => (Except.ok return_code.SUCCESS, done.2)
    | _, _, _ =>
      (Except.ok return_code.SUCCESS,
        { w with cout := w.cout ++ "class and header generator usage: \n" ++ desc ++ "\n" })

/-! ## The templates of the specification -/

/-- The guard token of section 4.1: upper-cased namespace, class name and
header extension joined with `_`. -/
def guard_token (ns c e : String) : String :=
  to_upper ns ++ "_" ++ to_upper c ++ "_" ++ to_upper e

/-- The header template of section 4.1. -/
def header_template (ns c e : String) : String :=
  "#ifndef " ++ guard_token ns c e ++ "\n#define " ++ guard_token ns c e
    ++ "\n\n\nnamespace " ++ ns ++ "\n\x7b\n\n\n\x7d\n\n#endif\n\n"

/-- The source template of section 4.1. -/
def source_template (h ns : String) : String :=
  "#include \"" ++ h ++ "\";\n\nnamespace " ++ ns ++ "\n\x7b\n\n\n\x7d\n\n"

/-! ## Concrete states -/

/-- An empty directory on a healthy device. -/
def fs_empty : FileSystem :=
  ⟨id, fun _ => none, fun _ => none, fun _ => true, fun _ => none⟩

/-- An empty directory on a device with no room left: files can be created,
no text can be stored. -/
def fs_full : FileSystem :=
  ⟨id, fun _ => none, fun _ => none, fun _ => true, fun _ => some 0⟩

/-- An empty directory in which no file can be created. -/
def fs_locked : FileSystem :=
  ⟨id, fun _ => none, fun _ => none, fun _ => false, fun _ => none⟩

/-- An empty directory in which `Bar.hpp` is the only file that can be
created. -/
def fs_header_only : FileSystem :=
  ⟨id, fun _ => none, fun _ => none, fun p => decide (p = "Bar.hpp"), fun _ => none⟩

/-- As `fs_header_only`, on a device that stores eight characters a file. -/
def fs_header_short : FileSystem :=
  ⟨id, fun _ => none, fun _ => none, fun p => decide (p = "Bar.hpp"), fun _ => some 8⟩

/-- A directory that already holds `Bar.cpp`. -/
def fs_taken : FileSystem :=
  fs_empty.set "Bar.cpp" "int x;\n"

/-- A directory that holds `Bar.cpp`, and in which `Bar.hpp` is a link to
itself: its status query fails. -/
def fs_taken_loop : FileSystem :=
  ⟨id, fun q => if q = "Bar.cpp" then some "int x;\n" else none,
    fun p => if p = "Bar.hpp" then some "boost::filesystem::status: Too many levels of symbolic links: \"Bar.hpp\"" else none,
    fun p => decide (p ≠ "Bar.hpp"), fun _ => none⟩

/-- An empty directory without search permission: every status query fails
and no file can be created. -/
def fs_no_search : FileSystem :=
  ⟨id, fun _ => none, fun _ => some "boost::filesystem::status: Permission denied",
    fun _ => false, fun _ => none⟩

/-- An empty directory but for `Bar.hpp`, a link to the absent `Bar.cpp`. -/
def fs_linked : FileSystem :=
  ⟨fun p => if p = "Bar.hpp" then "Bar.cpp" else p, fun _ => none, fun _ => none,
    fun _ => true, fun _ => none⟩

/-! ## The filesystem and the streams -/

theorem set_read_same (fs : FileSystem) (p content : String) :
    (fs.set p content).read p = some content := by
  simp [FileSystem.set, FileSystem.read]

theorem set_read_other (fs : FileSystem) (p content q : String)
    (h : fs.target q ≠ fs.target p) :
    (fs.set p content).read q = fs.read q := by
  simp [FileSystem.set, FileSystem.read, h]

theorem set_read_alias (fs : FileSystem) (p content q : String)
    (h : fs.target q = fs.target p) :
    (fs.set p content).read q = some content := by
  simp [FileSystem.set, FileSystem.read, h]

theorem set_files_other (fs : FileSystem) (p content q : String) (h : q ≠ fs.target p) :
    (fs.set p content).files q = fs.files q := by
  simp [FileSystem.set, h]

theorem set_set (fs : FileSystem) (p a b : String) :
    (fs.set p a).set p b = fs.set p b := by
  simp only [FileSystem.set, FileSystem.mk.injEq, and_true, true_and]
  funext q
  split_ifs <;> rfl

theorem stored_set (fs : FileSystem) (p a q text : String) :
    (fs.set p a).stored q text = fs.stored q text := rfl

theorem stored_of_accepts (fs : FileSystem) (p text : String)
    (h : fs.accepts p text = true) : fs.stored p text = text := by
  unfold FileSystem.accepts at h
  unfold FileSystem.stored
  cases hc : fs.capacity p with
  | none => rfl
  | some n =>
    rw [hc] at h
    simp only [decide_eq_true_eq] at h
    simp only
    apply String.ext
    exact List.take_of_length_le h

theorem append_ne_self (a b : String) (h : 0 < b.length) : a ++ b ≠ a := by
  intro he
  have hl := congrArg String.length he
  rw [String.length_append] at hl
  omega

theorem exists_set_same (fs : FileSystem) (p content q : String)
    (h : fs.stat_error q = none) (ht : fs.target q = fs.target p) :
    filesystem_exists (fs.set p content) q = Except.ok true := by
  have hs : (fs.set p content).stat_error q = none := h
  simp [filesystem_exists, hs, set_read_alias fs p content q ht]

theorem exists_set_of_exists (fs : FileSystem) (p content q : String)
    (h : filesystem_exists fs q = Except.ok true) :
    filesystem_exists (fs.set p content) q = Except.ok true := by
  unfold filesystem_exists at h ⊢
  have hs : (fs.set p content).stat_error q = fs.stat_error q := rfl
  rw [hs]
  cases hq : fs.stat_error q with
  | some what => rw [hq] at h; cases h
  | none =>
    rw [hq] at h
    simp only [Except.ok.injEq] at h ⊢
    by_cases ht : fs.target q = fs.target p
    · rw [set_read_alias fs p content q ht]; rfl
    · rw [set_read_other fs p content q ht]; exact h

/-- What a positive answer of the check means: both status queries answered
and neither path denotes a file. -/
theorem check_true_iff (fs : FileSystem) (a b : String) :
    check_file_can_be_created fs a b = Except.ok true ↔
      fs.stat_error a = none ∧ fs.stat_error b = none
        ∧ fs.read a = none ∧ fs.read b = none := by
  unfold check_file_can_be_created filesystem_exists
  cases ha : fs.stat_error a <;> cases hb : fs.stat_error b <;>
    cases hra : fs.read a <;> cases hrb : fs.read b <;> simp

/-! ## The two renderers -/

theorem build_header_ok (f ext ns cls : String) (fs : FileSystem) (h : fs.can_open f = true) :
    build_header f ext ns cls fs
      = Except.ok (fs.set f (fs.stored f (header_template ns cls ext))) := by
  rw [← set_set fs f "" (fs.stored f (header_template ns cls ext))]
  simp [build_header, ofstream.init, h, ofstream.fail, ofstream.put, ofstream.close,
    header_template, guard_token, String.append_assoc, stored_set]

theorem build_header_fails (f ext ns cls : String) (fs : FileSystem)
    (h : fs.can_open f = false) :
    build_header f ext ns cls fs = Except.error "failed to create header" := by
  simp [build_header, ofstream.init, h, ofstream.fail]

theorem build_source_ok (s hn ns : String) (fs : FileSystem) (h : fs.can_open s = true) :
    build_source s hn ns fs
      = Except.ok (fs.set s (fs.stored s (source_template hn ns))) := by
  rw [← set_set fs s "" (fs.stored s (source_template hn ns))]
  simp [build_source, ofstream.init, h, ofstream.fail, ofstream.put, ofstream.close,
    source_template, String.append_assoc, stored_set]

theorem build_source_fails (s hn ns : String) (fs : FileSystem)
    (h : fs.can_open s = false) :
    build_source s hn ns fs = Except.error "failed to create source" := by
  simp [build_source, ofstream.init, h, ofstream.fail]

/-! ## The outcomes of `process_options` -/

theorem names_header_ne_source (c s : String) :
    (process_options.names c s).header_name ≠ (process_options.names c s).source_name := by
  intro h
  have hd := congrArg String.data h
  unfold process_options.names at hd
  split_ifs at hd <;> simp [String.data_append] at hd

theorem process_options_throws (ns c s : String) (w : World) (what : String)
    (h : check_file_can_be_created w.fs (process_options.names c s).header_name
      (process_options.names c s).source_name = Except.error what) :
    process_options ns c s w = (Except.error what, w) := by
  simp [process_options, h]

theorem process_options_exists (ns c s : String) (w : World)
    (h : check_file_can_be_created w.fs (process_options.names c s).header_name
      (process_options.names c s).source_name = Except.ok false) :
    process_options ns c s w
      = (Except.ok return_code.FAILURE_FILE_EXISTS,
          { w with cerr := w.cerr ++ "one of the files exists\n" }) := by
  simp [process_options, h]

theorem process_options_header_fails (ns c s : String) (w : World)
    (h : check_file_can_be_created w.fs (process_options.names c s).header_name
      (process_options.names c s).source_name = Except.ok true)
    (hh : w.fs.can_open (process_options.names c s).header_name = false) :
    process_options ns c s w
      = (Except.ok return_code.FAILURE_CREATE_FILE,
          { w with cerr := w.cerr ++ "Failed to create files failed to create header\n" }) := by
  simp [process_options, h, build_header_fails _ _ _ _ _ hh, String.append_assoc]

theorem process_options_source_fails (ns c s : String) (w : World)
    (h : check_file_can_be_created w.fs (process_options.names c s).header_name
      (process_options.names c s).source_name = Except.ok true)
    (hh : w.fs.can_open (process_options.names c s).header_name = true)
    (hs : w.fs.can_open (process_options.names c s).source_name = false) :
    process_options ns c s w
      = (Except.ok return_code.FAILURE_CREATE_FILE,
          { fs := w.fs.set (process_options.names c s).header_name
              (w.fs.stored (process_options.names c s).header_name
                (header_template ns c (process_options.names c s).header_extension)),
            cout := w.cout,
            cerr := w.cerr ++ "Failed to create files failed to create source\n" }) := by
  have hs2 : (w.fs.set (process_options.names c s).header_name
      (w.fs.stored (process_options.names c s).header_name
        (header_template ns c (process_options.names c s).header_extension))).can_open
      (process_options.names c s).source_name = false := hs
  simp [process_options, h, build_header_ok _ _ _ _ _ hh, build_source_fails _ _ _ _ hs2,
    String.append_assoc]

theorem process_options_ok (ns c s : String) (w : World)
    (h : check_file_can_be_created w.fs (process_options.names c s).header_name
      (process_options.names c s).source_name = Except.ok true)
    (hh : w.fs.can_open (process_options.names c s).header_name = true)
    (hs : w.fs.can_open (process_options.names c s).source_name = true) :
    process_options ns c s w
      = (Except.ok return_code.SUCCESS,
          { fs := (w.fs.set (process_options.names c s).header_name
              (w.fs.stored (process_options.names c s).header_name
                (header_template ns c (process_options.names c s).header_extension))).set
              (process_options.names c s).source_name
              (w.fs.stored (process_options.names c s).source_name
                (source_template (process_options.names c s).header_name ns)),
            cout := w.cout,
            cerr := w.cerr }) := by
  have hs2 : (w.fs.set (process_options.names c s).header_name
      (w.fs.stored (process_options.names c s).header_name
        (header_template ns c (process_options.names c s).header_extension))).can_open
      (process_options.names c s).source_name = true := hs
  simp [process_options, h, build_header_ok _ _ _ _ _ hh, build_source_ok _ _ _ _ hs2,
    stored_set]

theorem code_ne {a b : Int} (h : a ≠ b) (w1 : World)
    (he : ((Except.ok a : Except String Int), w1).1 = Except.ok b) : False := by
  simp only [Except.ok.injEq] at he
  exact h he

theorem process_options_success_inv (ns c s : String) (w : World)
    (h : (process_options ns c s w).1 = Except.ok return_code.SUCCESS) :
    check_file_can_be_created w.fs (process_options.names c s).header_name
        (process_options.names c s).source_name = Except.ok true
      ∧ w.fs.can_open (process_options.names c s).header_name = true
      ∧ w.fs.can_open (process_options.names c s).source_name = true := by
  cases hc : check_file_can_be_created w.fs (process_options.names c s).header_name
      (process_options.names c s).source_name with
  | error what =>
    rw [process_options_throws ns c s w what hc] at h
    cases h
  | ok b =>
    cases b with
    | false =>
      rw [process_options_exists ns c s w hc] at h
      exact (code_ne (by decide) _ h).elim
    | true =>
      cases hh : w.fs.can_open (process_options.names c s).header_name with
      | false =>
        rw [process_options_header_fails ns c s w hc hh] at h
        exact (code_ne (by decide) _ h).elim
      | true =>
        cases hs : w.fs.can_open (process_options.names c s).source_name with
        | false =>
          rw [process_options_source_fails ns c s w hc hh hs] at h
          exact (code_ne (by decide) _ h).elim
        | true => exact ⟨rfl, rfl, rfl⟩

/-- A call of `process_options` that returns leaves a trace: a message on
`cerr` or a change of the filesystem. -/
theorem process_options_leaves_trace (ns c s : String) (w : World) (code : Int)
    (hr : (process_options ns c s w).1 = Except.ok code) :
    (process_options ns c s w).2.fs ≠ w.fs ∨ (process_options ns c s w).2.cerr ≠ w.cerr := by
  cases hc : check_file_can_be_created w.fs (process_options.names c s).header_name
      (process_options.names c s).source_name with
  | error what =>
    rw [process_options_throws ns c s w what hc] at hr
    cases hr
  | ok b =>
    cases b with
    | false =>
      rw [process_options_exists ns c s w hc]
      exact Or.inr (append_ne_self _ _ (by decide))
    | true =>
      cases hh : w.fs.can_open (process_options.names c s).header_name with
      | false =>
        rw [process_options_header_fails ns c s w hc hh]
        exact Or.inr (append_ne_self _ _ (by decide))
      | true =>
        cases hs : w.fs.can_open (process_options.names c s).source_name with
        | false =>
          rw [process_options_source_fails ns c s w hc hh hs]
          exact Or.inr (append_ne_self _ _ (by decide))
        | true =>
          rw [process_options_ok ns c s w hc hh hs]
          left
          intro he
          have hf := congrArg (fun fs => fs.read (process_options.names c s).source_name) he
          simp only [set_read_same] at hf
          rw [((check_true_iff _ _ _).1 hc).2.2.2] at hf
          exact Option.some_ne_none _ hf

/-- Where the command line parses and generation is reached, `main` returns
`SUCCESS` whenever `process_options` returns at all: line 122 drops its
value. -/
theorem main_drops_code (ns c s desc : String) (w : World) (code : Int)
    (h : (process_options ns c s w).1 = Except.ok code) :
    (main (Except.ok ⟨false, some ns, some c, s⟩) desc w).1 = Except.ok return_code.SUCCESS := by
  simp only [main]
  rw [h]

/-! ## The claims -/

/-- C1: `process_options` computes the header and source names from the fixed
table and works with them. For the row of the style (`cc`: `h`, `c.h`, `c.cc`;
`cxx`: `hxx`, `c.hxx`, `c.cxx`; any other: `hpp`, `c.hpp`, `c.cpp`) the names
it computes are that row, the existence check is made on the row's two file
names, `build_header` is called on the header name with the row's extension,
and `build_source` on the source name with the header name. -/
theorem process_options_names_table (ns c s : String) (w : World) (he hn sn : String)
    (hrow : (s = "cc" ∧ he = "h" ∧ hn = c ++ ".h" ∧ sn = c ++ ".cc")
      ∨ (s = "cxx" ∧ he = "hxx" ∧ hn = c ++ ".hxx" ∧ sn = c ++ ".cxx")
      ∨ (s ≠ "cc" ∧ s ≠ "cxx" ∧ he = "hpp" ∧ hn = c ++ ".hpp" ∧ sn = c ++ ".cpp")) :
    process_options.names c s = ⟨he, hn, sn⟩
      ∧ process_options ns c s w
          = (match check_file_can_be_created w.fs hn sn with
            | Except.error what => (Except.error what, w)
            | Except.ok false =>
              (Except.ok return_code.FAILURE_FILE_EXISTS,
                { w with cerr := w.cerr ++ "one of the files exists\n" })
            | Except.ok true =>
              match build_header hn he ns c w.fs with
              | Except.error what =>
                (Except.ok return_code.FAILURE_CREATE_FILE,
                  { w with cerr := w.cerr ++ "Failed to create files " ++ what ++ "\n" })
              | Except.ok fs1 =>
                match build_source sn hn ns fs1 with
                | Except.error what =>
                  (Except.ok return_code.FAILURE_CREATE_FILE,
                    { fs := fs1, cout := w.cout,
                      cerr := w.cerr ++ "Failed to create files " ++ what ++ "\n" })
                | Except.ok fs2 =>
                  (Except.ok return_code.SUCCESS,
                    { fs := fs2, cout := w.cout, cerr := w.cerr })) := by
  have hnames : process_options.names c s = ⟨he, hn, sn⟩ := by
    rcases hrow with ⟨h1, h2, h3, h4⟩ | ⟨h1, h2, h3, h4⟩ | ⟨h1, h2, h3, h4, h5⟩
    · subst h1 h2 h3 h4
      simp [process_options.names, String.append_assoc]
    · subst h1 h2 h3 h4
      simp [process_options.names, String.append_assoc]
    · subst h3 h4 h5
      simp [process_options.names, h1, h2, String.append_assoc]
  refine ⟨hnames, ?_⟩
  simp only [process_options, hnames]

/-- C1, witness: class `Widget`, style `cc` in an empty directory. The names
are `h`, `Widget.h`, `Widget.cc`, and the header written under `Widget.h`
carries the extension `h` in its guard. -/
theorem process_options_names_table_witness :
    process_options.names "Widget" "cc" = ⟨"h", "Widget.h", "Widget.cc"⟩
      ∧ (process_options "my_ns" "Widget" "cc" ⟨fs_empty, "", ""⟩).2.fs.read "Widget.h"
          = some "#ifndef MY_NS_WIDGET_H\n#define MY_NS_WIDGET_H\n\n\nnamespace my_ns\n\x7b\n\n\n\x7d\n\n#endif\n\n"
      ∧ (process_options "my_ns" "Widget" "cc" ⟨fs_empty, "", ""⟩).2.fs.read "Widget.cc"
          = some "#include \"Widget.h\";\n\nnamespace my_ns\n\x7b\n\n\n\x7d\n\n" :=
  have h := process_options_names_table "my_ns" "Widget" "cc" ⟨fs_empty, "", ""⟩
    "h" "Widget.h" "Widget.cc" (Or.inl ⟨rfl, rfl, rfl, rfl⟩)
  ⟨h.1, (congrArg (fun r => r.2.fs.read "Widget.h") h.2).trans (by decide),
    (congrArg (fun r => r.2.fs.read "Widget.cc") h.2).trans (by decide)⟩

/-- C2: when the header file can be opened, `build_header` returns normally
and what it sends to the file is exactly the header template with the guard
`upper(ns)_upper(c)_upper(e)`: the file holds what the device stores of that
text, hence the text itself when the device has room, and no other file
changes. The namespace line carries `ns` as given. Upper-casing works
character by character, keeps the length and leaves every character outside
`a`..`z` unchanged. -/
theorem build_header_writes (f e ns c : String) (fs : FileSystem)
    (h : fs.can_open f = true) :
    ∃ fs1, build_header f e ns c fs = Except.ok fs1
      ∧ fs1.read f = some (fs.stored f (header_template ns c e))
      ∧ (fs.accepts f (header_template ns c e) = true →
          fs1.read f = some (header_template ns c e))
      ∧ (∀ q, q ≠ fs.target f → fs1.files q = fs.files q)
      ∧ (∀ p, fs.target p ≠ fs.target f → fs1.read p = fs.read p)
      ∧ header_template ns c e
          = "#ifndef " ++ (to_upper ns ++ "_" ++ to_upper c ++ "_" ++ to_upper e)
            ++ "\n#define " ++ (to_upper ns ++ "_" ++ to_upper c ++ "_" ++ to_upper e)
            ++ "\n\n\nnamespace " ++ ns ++ "\n\x7b\n\n\n\x7d\n\n#endif\n\n"
      ∧ (to_upper ns).data = ns.data.map toupper
      ∧ (∀ ch : Char, ¬ ('a' ≤ ch ∧ ch ≤ 'z') → toupper ch = ch)
      ∧ (∀ ch : Char, 'a' ≤ ch ∧ ch ≤ 'z' → (toupper ch).toNat = ch.toNat - 32) := by
  refine ⟨_, build_header_ok f e ns c fs h, set_read_same _ _ _, ?_, ?_, ?_, rfl, rfl, ?_, ?_⟩
  · intro ha
    rw [set_read_same, stored_of_accepts fs f _ ha]
  · intro q hq
    exact set_files_other _ _ _ _ hq
  · intro p hp
    exact set_read_other _ _ _ _ hp
  · intro ch hch
    simp [toupper, hch]
  · intro ch hch
    have h1 : 97 ≤ ch.toNat := hch.1
    have h2 : ch.toNat ≤ 122 := hch.2
    have hv : (ch.toNat - 32).isValidChar := by
      left
      omega
    simp only [toupper, hch, and_self, if_true]
    rw [Char.ofNat, dif_pos hv]
    rfl

/-- C2, witness: namespace `my_ns`, class `Widget`, style `cc` (extension `h`)
give the guard `MY_NS_WIDGET_H`. -/
theorem build_header_writes_witness :
    fs_empty.can_open "Widget.h" = true
      ∧ ∃ fs1, build_header "Widget.h" "h" "my_ns" "Widget" fs_empty = Except.ok fs1
        ∧ fs1.read "Widget.h" = some
            "#ifndef MY_NS_WIDGET_H\n#define MY_NS_WIDGET_H\n\n\nnamespace my_ns\n\x7b\n\n\n\x7d\n\n#endif\n\n" := by
  refine ⟨rfl, ?_⟩
  obtain ⟨fs1, h1, _, h3, _⟩ :=
    build_header_writes "Widget.h" "h" "my_ns" "Widget" fs_empty rfl
  exact ⟨fs1, h1, (h3 rfl).trans (by decide)⟩

/-- C3, as stated, fails: on a device with no room left `process_options`
returns `SUCCESS` and the source file is empty, not the rendered source. -/
theorem process_options_source_unwritten :
    (process_options "my_ns" "Widget" "cc" ⟨fs_full, "", ""⟩).1
        = Except.ok return_code.SUCCESS
      ∧ (process_options "my_ns" "Widget" "cc" ⟨fs_full, "", ""⟩).2.fs.read "Widget.cc"
          = some ""
      ∧ (process_options "my_ns" "Widget" "cc" ⟨fs_full, "", ""⟩).2.fs.read "Widget.cc"
          ≠ some "#include \"Widget.h\";\n\nnamespace my_ns\n\x7b\n\n\n\x7d\n\n" := by
  refine ⟨rfl, rfl, ?_⟩
  decide

/-- C3, amended: when `process_options` returns `SUCCESS` and the device stored
the text of the source stream, the source file holds exactly the include line
naming the header file of this run, with the semicolon, followed by the empty
namespace block. That header name is the class name, a dot and the extension
of this run, and a file exists under it afterwards. -/
theorem process_options_source_content (ns c s : String) (w : World)
    (hok : (process_options ns c s w).1 = Except.ok return_code.SUCCESS)
    (hst : w.fs.accepts (process_options.names c s).source_name
      (source_template (process_options.names c s).header_name ns) = true) :
    (process_options ns c s w).2.fs.read (process_options.names c s).source_name
        = some ("#include \"" ++ (process_options.names c s).header_name
            ++ "\";\n\nnamespace " ++ ns ++ "\n\x7b\n\n\n\x7d\n\n")
      ∧ (process_options.names c s).header_name
          = c ++ "." ++ (process_options.names c s).header_extension
      ∧ filesystem_exists (process_options ns c s w).2.fs
          (process_options.names c s).header_name = Except.ok true := by
  obtain ⟨hc, hh, hs⟩ := process_options_success_inv ns c s w hok
  rw [process_options_ok ns c s w hc hh hs]
  refine ⟨?_, ?_, ?_⟩
  · simp only [set_read_same]
    rw [stored_of_accepts _ _ _ hst]
    rfl
  · unfold process_options.names
    split_ifs <;> rfl
  · exact exists_set_of_exists _ _ _ _
      (exists_set_same _ _ _ _ ((check_true_iff _ _ _).1 hc).1 rfl)

/-- C3, witness: `foo`, `Bar`, default style in an empty directory. -/
theorem process_options_source_content_witness :
    (process_options "foo" "Bar" "cpp" ⟨fs_empty, "", ""⟩).1 = Except.ok return_code.SUCCESS
      ∧ fs_empty.accepts "Bar.cpp" (source_template "Bar.hpp" "foo") = true
      ∧ (process_options "foo" "Bar" "cpp" ⟨fs_empty, "", ""⟩).2.fs.read "Bar.cpp"
          = some "#include \"Bar.hpp\";\n\nnamespace foo\n\x7b\n\n\n\x7d\n\n" :=
  ⟨rfl, by decide,
    (process_options_source_content "foo" "Bar" "cpp" ⟨fs_empty, "", ""⟩
      rfl (by decide)).1.trans (by decide)⟩

/-- C4, as stated, fails: `Bar.cpp` exists and the status query on `Bar.hpp`
fails (a link to itself); `boost::filesystem::exists` throws on line 88,
outside the `try`, and `process_options` returns no code. -/
theorem process_options_status_fails :
    (fs_taken_loop.read "Bar.cpp").isSome = true
      ∧ filesystem_exists fs_taken_loop "Bar.cpp" = Except.ok true
      ∧ (process_options "foo" "Bar" "cpp" ⟨fs_taken_loop, "", ""⟩).1
          = Except.error
              "boost::filesystem::status: Too many levels of symbolic links: \"Bar.hpp\""
      ∧ (process_options "foo" "Bar" "cpp" ⟨fs_taken_loop, "", ""⟩).1
          ≠ Except.ok return_code.FAILURE_FILE_EXISTS := by
  refine ⟨rfl, rfl, rfl, ?_⟩
  intro h
  cases h

/-- C4, amended: in every state in which the header name or the source name
denotes an existing file, `process_options` writes nothing: the filesystem
afterwards is the filesystem before. It returns `FAILURE_FILE_EXISTS`, which
is 3, with the message on `cerr`, when the status query finds the header, or
finds the header absent and the source present, in particular whenever both
queries answer. Otherwise a status query failed before an existing target was
found, and the exception leaves `process_options` with the state untouched. -/
theorem process_options_file_exists (ns c s : String) (w : World)
    (h : (w.fs.read (process_options.names c s).header_name).isSome = true
      ∨ (w.fs.read (process_options.names c s).source_name).isSome = true) :
    (process_options ns c s w).2.fs = w.fs
      ∧ (process_options ns c s w).2.cout = w.cout
      ∧ (filesystem_exists w.fs (process_options.names c s).header_name = Except.ok true
          ∨ (filesystem_exists w.fs (process_options.names c s).header_name = Except.ok false
            ∧ filesystem_exists w.fs (process_options.names c s).source_name
              = Except.ok true) →
          (process_options ns c s w).1 = Except.ok return_code.FAILURE_FILE_EXISTS
            ∧ (process_options ns c s w).2.cerr = w.cerr ++ "one of the files exists\n")
      ∧ (w.fs.stat_error (process_options.names c s).header_name = none →
          w.fs.stat_error (process_options.names c s).source_name = none →
          (process_options ns c s w).1 = Except.ok return_code.FAILURE_FILE_EXISTS)
      ∧ return_code.FAILURE_FILE_EXISTS = 3
      ∧ ((process_options ns c s w).1 = Except.ok return_code.FAILURE_FILE_EXISTS
          ∨ ∃ what, (process_options ns c s w).1 = Except.error what
              ∧ (process_options ns c s w).2 = w
              ∧ (w.fs.stat_error (process_options.names c s).header_name = some what
                ∨ w.fs.stat_error (process_options.names c s).source_name = some what)) := by
  have hcheck : check_file_can_be_created w.fs (process_options.names c s).header_name
      (process_options.names c s).source_name ≠ Except.ok true := by
    intro hc
    obtain ⟨_, _, h1, h2⟩ := (check_true_iff _ _ _).1 hc
    rw [h1, h2] at h
    simp at h
  have hpos : filesystem_exists w.fs (process_options.names c s).header_name = Except.ok true
      ∨ (filesystem_exists w.fs (process_options.names c s).header_name = Except.ok false
        ∧ filesystem_exists w.fs (process_options.names c s).source_name = Except.ok true) →
      check_file_can_be_created w.fs (process_options.names c s).header_name
        (process_options.names c s).source_name = Except.ok false := by
    intro hp
    unfold check_file_can_be_created
    rcases hp with hp | ⟨hp1, hp2⟩
    · rw [hp]
    · rw [hp1, hp2]
      rfl
  refine ⟨?_, ?_, ?_, ?_, rfl, ?_⟩
  · cases hc : check_file_can_be_created w.fs (process_options.names c s).header_name
        (process_options.names c s).source_name with
    | error what => rw [process_options_throws ns c s w what hc]
    | ok b =>
      cases b with
      | false => rw [process_options_exists ns c s w hc]
      | true => exact absurd hc hcheck
  · cases hc : check_file_can_be_created w.fs (process_options.names c s).header_name
        (process_options.names c s).source_name with
    | error what => rw [process_options_throws ns c s w what hc]
    | ok b =>
      cases b with
      | false => rw [process_options_exists ns c s w hc]
      | true => exact absurd hc hcheck
  · intro hp
    rw [process_options_exists ns c s w (hpos hp)]
    exact ⟨rfl, rfl⟩
  · intro h1 h2
    have hc : check_file_can_be_created w.fs (process_options.names c s).header_name
        (process_options.names c s).source_name = Except.ok false := by
      unfold check_file_can_be_created filesystem_exists
      rw [h1, h2]
      rcases h with h | h
      · simp [h]
      · cases hr : (w.fs.read (process_options.names c s).header_name).isSome <;> simp [h]
    rw [process_options_exists ns c s w hc]
  · cases hc : check_file_can_be_created w.fs (process_options.names c s).header_name
        (process_options.names c s).source_name with
    | error what =>
      right
      refine ⟨what, ?_, ?_, ?_⟩
      · rw [process_options_throws ns c s w what hc]
      · rw [process_options_throws ns c s w what hc]
      · unfold check_file_can_be_created filesystem_exists at hc
        cases h1 : w.fs.stat_error (process_options.names c s).header_name with
        | some e1 =>
          rw [h1] at hc
          simp only [Except.error.injEq] at hc
          left
          rw [hc]
        | none =>
          rw [h1] at hc
          cases h2 : w.fs.stat_error (process_options.names c s).source_name with
          | some e2 =>
            rw [h2] at hc
            cases hr : (w.fs.read (process_options.names c s).header_name).isSome
            · rw [hr] at hc
              simp only [Except.error.injEq] at hc
              right
              rw [hc]
            · rw [hr] at hc
              cases hc
          | none =>
            rw [h2] at hc
            cases hr : (w.fs.read (process_options.names c s).header_name).isSome
            · rw [hr] at hc
              cases hc
            · rw [hr] at hc
              cases hc
    | ok b =>
      cases b with
      | false =>
        left
        rw [process_options_exists ns c s w hc]
      | true => exact absurd hc hcheck

/-- C4, witness: `Bar.cpp` exists; the run returns 3, `Bar.cpp` keeps its
content and `Bar.hpp` is not created. -/
theorem process_options_file_exists_witness :
    ((fs_taken.read "Bar.hpp").isSome = true ∨ (fs_taken.read "Bar.cpp").isSome = true)
      ∧ (process_options "foo" "Bar" "cpp" ⟨fs_taken, "", ""⟩).1 = Except.ok 3
      ∧ (process_options "foo" "Bar" "cpp" ⟨fs_taken, "", ""⟩).2.fs = fs_taken :=
  ⟨Or.inr rfl,
    (process_options_file_exists "foo" "Bar" "cpp" ⟨fs_taken, "", ""⟩
      (Or.inr rfl)).2.2.2.1 rfl rfl,
    (process_options_file_exists "foo" "Bar" "cpp" ⟨fs_taken, "", ""⟩ (Or.inr rfl)).1⟩

/-- C5: `--namespace foo --class Bar` where `Bar.cpp` exists. `process_options`
returns 3 and `main` exits with 0. -/
theorem main_exit_code_file_exists :
    filesystem_exists fs_taken "Bar.cpp" = Except.ok true
      ∧ (process_options "foo" "Bar" "cpp" ⟨fs_taken, "", ""⟩).1 = Except.ok 3
      ∧ (main (Except.ok ⟨false, some "foo", some "Bar", "cpp"⟩) "" ⟨fs_taken, "", ""⟩).1
          = Except.ok 0 :=
  ⟨rfl, rfl, rfl⟩

/-- C6: `--namespace foo --class Bar` in an empty directory where no file can be
created. `process_options` returns 2 and `main` exits with 0. -/
theorem main_exit_code_create_fails :
    check_file_can_be_created fs_locked "Bar.hpp" "Bar.cpp" = Except.ok true
      ∧ fs_locked.can_open "Bar.hpp" = false
      ∧ (process_options "foo" "Bar" "cpp" ⟨fs_locked, "", ""⟩).1 = Except.ok 2
      ∧ (main (Except.ok ⟨false, some "foo", some "Bar", "cpp"⟩) "" ⟨fs_locked, "", ""⟩).1
          = Except.ok 0 :=
  ⟨rfl, rfl, rfl, rfl⟩

/-- C7: where neither target exists and both can be created, a first run
returns `SUCCESS` and leaves both files, a second run with the same arguments
on the resulting state returns `FAILURE_FILE_EXISTS` and leaves the filesystem
of the first run as it is. -/
theorem process_options_twice (ns c s : String) (w : World)
    (hne : check_file_can_be_created w.fs (process_options.names c s).header_name
      (process_options.names c s).source_name = Except.ok true)
    (hh : w.fs.can_open (process_options.names c s).header_name = true)
    (hs : w.fs.can_open (process_options.names c s).source_name = true) :
    (process_options ns c s w).1 = Except.ok return_code.SUCCESS
      ∧ filesystem_exists (process_options ns c s w).2.fs
          (process_options.names c s).header_name = Except.ok true
      ∧ filesystem_exists (process_options ns c s w).2.fs
          (process_options.names c s).source_name = Except.ok true
      ∧ (process_options ns c s (process_options ns c s w).2).1
          = Except.ok return_code.FAILURE_FILE_EXISTS
      ∧ (process_options ns c s (process_options ns c s w).2).2.fs
          = (process_options ns c s w).2.fs := by
  obtain ⟨h1, h2, _, _⟩ := (check_true_iff _ _ _).1 hne
  have hex : filesystem_exists (process_options ns c s w).2.fs
      (process_options.names c s).source_name = Except.ok true := by
    rw [process_options_ok ns c s w hne hh hs]
    exact exists_set_same _ _ _ _ h2 rfl
  have hexh : filesystem_exists (process_options ns c s w).2.fs
      (process_options.names c s).header_name = Except.ok true := by
    rw [process_options_ok ns c s w hne hh hs]
    exact exists_set_of_exists _ _ _ _ (exists_set_same _ _ _ _ h1 rfl)
  have hc2 : check_file_can_be_created (process_options ns c s w).2.fs
      (process_options.names c s).header_name (process_options.names c s).source_name
      = Except.ok false := by
    unfold check_file_can_be_created
    rw [hexh]
  have h3 := process_options_exists ns c s (process_options ns c s w).2 hc2
  refine ⟨?_, hexh, hex, ?_, ?_⟩
  · rw [process_options_ok ns c s w hne hh hs]
  · rw [h3]
  · rw [h3]

/-- C7, witness: two runs of `foo`, `Bar` in an empty directory. -/
theorem process_options_twice_witness :
    check_file_can_be_created fs_empty "Bar.hpp" "Bar.cpp" = Except.ok true
      ∧ fs_empty.can_open "Bar.hpp" = true
      ∧ fs_empty.can_open "Bar.cpp" = true
      ∧ (process_options "foo" "Bar" "cpp" ⟨fs_empty, "", ""⟩).1 = Except.ok 0
      ∧ (process_options "foo" "Bar" "cpp"
          (process_options "foo" "Bar" "cpp" ⟨fs_empty, "", ""⟩).2).1 = Except.ok 3
      ∧ (process_options "foo" "Bar" "cpp"
          (process_options "foo" "Bar" "cpp" ⟨fs_empty, "", ""⟩).2).2.fs
          = (process_options "foo" "Bar" "cpp" ⟨fs_empty, "", ""⟩).2.fs :=
  have h := process_options_twice "foo" "Bar" "cpp" ⟨fs_empty, "", ""⟩ rfl rfl rfl
  ⟨rfl, rfl, rfl, h.1, h.2.2.2.1, h.2.2.2.2⟩

/-- C8: when `--help` is present, or `--namespace` is absent, or `--class` is
absent, `main` appends the usage text to `cout`, changes nothing else, and
returns `SUCCESS`, which is 0. `process_options` was not called: a call that
returns leaves a message on `cerr` or a changed filesystem, and a call that
throws keeps `main` from returning; here `main` returned with the filesystem
and `cerr` untouched. -/
theorem main_usage (vm : variables_map) (desc : String) (w : World)
    (h : vm.help = true ∨ vm.ns = none ∨ vm.cls = none) :
    main (Except.ok vm) desc w
        = (Except.ok return_code.SUCCESS,
            { w with cout := w.cout ++ "class and header generator usage: \n" ++ desc ++ "\n" })
      ∧ return_code.SUCCESS = 0
      ∧ (main (Except.ok vm) desc w).2.fs = w.fs
      ∧ (main (Except.ok vm) desc w).2.cerr = w.cerr
      ∧ ∀ ns c s,
          (∃ what, (process_options ns c s w).1 = Except.error what)
          ∨ (process_options ns c s w).2.fs ≠ (main (Except.ok vm) desc w).2.fs
          ∨ (process_options ns c s w).2.cerr ≠ (main (Except.ok vm) desc w).2.cerr := by
  have hm : main (Except.ok vm) desc w
      = (Except.ok return_code.SUCCESS,
          { w with cout := w.cout ++ "class and header generator usage: \n" ++ desc ++ "\n" }) := by
    obtain ⟨hp, n, k, st⟩ := vm
    simp only at h
    rcases h with h | h | h
    · subst h
      simp [main]
    · subst h
      cases hp <;> simp [main]
    · subst h
      cases hp <;> cases n <;> simp [main]
  rw [hm]
  refine ⟨rfl, rfl, rfl, rfl, fun ns c s => ?_⟩
  cases hr : (process_options ns c s w).1 with
  | error what => exact Or.inl ⟨what, rfl⟩
  | ok code => exact Or.inr (process_options_leaves_trace ns c s w code hr)

/-- C8, witness: `--help` next to a complete set of options, in an empty
directory. -/
theorem main_usage_witness :
    main (Except.ok ⟨true, some "foo", some "Bar", "cc"⟩) "Options" ⟨fs_empty, "", ""⟩
      = (Except.ok 0, ⟨fs_empty, "class and header generator usage: \nOptions\n", ""⟩) :=
  (main_usage ⟨true, some "foo", some "Bar", "cc"⟩ "Options" ⟨fs_empty, "", ""⟩
    (Or.inl rfl)).1.trans rfl

/-- C9, as stated, fails in three ways. On a device with no room left both
files open, the text goes nowhere, and `process_options` returns `SUCCESS`
with an empty header file. Where `Bar.hpp` is a link to the absent `Bar.cpp`,
`process_options` returns `SUCCESS` and the two names denote one file, which
holds the source text. In a directory without search permission no file can
be opened, and `process_options` throws on line 88 instead of returning
`FAILURE_CREATE_FILE`. -/
theorem process_options_success_unwritten :
    (fs_full.accepts "Bar.hpp" (header_template "foo" "Bar" "hpp") = false
      ∧ (process_options "foo" "Bar" "cpp" ⟨fs_full, "", ""⟩).1
          = Except.ok return_code.SUCCESS
      ∧ (process_options "foo" "Bar" "cpp" ⟨fs_full, "", ""⟩).2.fs.read "Bar.hpp" = some ""
      ∧ (process_options "foo" "Bar" "cpp" ⟨fs_full, "", ""⟩).2.fs.read "Bar.hpp"
          ≠ some (header_template "foo" "Bar" "hpp"))
    ∧ ((process_options "foo" "Bar" "cpp" ⟨fs_linked, "", ""⟩).1
          = Except.ok return_code.SUCCESS
      ∧ (process_options "foo" "Bar" "cpp" ⟨fs_linked, "", ""⟩).2.fs.target "Bar.hpp"
          = (process_options "foo" "Bar" "cpp" ⟨fs_linked, "", ""⟩).2.fs.target "Bar.cpp"
      ∧ (process_options "foo" "Bar" "cpp" ⟨fs_linked, "", ""⟩).2.fs.read "Bar.hpp"
          = some (source_template "Bar.hpp" "foo")
      ∧ (process_options "foo" "Bar" "cpp" ⟨fs_linked, "", ""⟩).2.fs.read "Bar.hpp"
          ≠ some (header_template "foo" "Bar" "hpp"))
    ∧ (fs_no_search.can_open "Bar.hpp" = false
      ∧ (process_options "foo" "Bar" "cpp" ⟨fs_no_search, "", ""⟩).1
          = Except.error "boost::filesystem::status: Permission denied"
      ∧ (process_options "foo" "Bar" "cpp" ⟨fs_no_search, "", ""⟩).1
          ≠ Except.ok return_code.FAILURE_CREATE_FILE) := by
  refine ⟨⟨by decide, rfl, rfl, by decide⟩, ⟨rfl, rfl, by decide, by decide⟩, ⟨rfl, rfl, ?_⟩⟩
  intro h
  cases h

/-- C9, amended: `process_options` returns `SUCCESS` exactly when the existence
check answered that neither target exists and both files could be opened.
Then the two names differ, a file exists under each, and the source file
holds what the device stored of the rendered source, the whole text when the
device had room. Where the two names denote different files the header file
likewise holds what the device stored of the rendered header; where they
denote one file it holds what the source file holds. Where the check answered
that neither target exists, a failure to open either file gives
`FAILURE_CREATE_FILE`; where a status query of the check failed, the exception
leaves `process_options` and nothing is written. Whether the text was stored
has no influence on the returned code. -/
theorem process_options_success_iff (ns c s : String) (w : World) :
    ((process_options ns c s w).1 = Except.ok return_code.SUCCESS ↔
        check_file_can_be_created w.fs (process_options.names c s).header_name
            (process_options.names c s).source_name = Except.ok true
          ∧ w.fs.can_open (process_options.names c s).header_name = true
          ∧ w.fs.can_open (process_options.names c s).source_name = true)
      ∧ ((process_options ns c s w).1 = Except.ok return_code.SUCCESS →
          (process_options.names c s).header_name ≠ (process_options.names c s).source_name
          ∧ filesystem_exists (process_options ns c s w).2.fs
              (process_options.names c s).header_name = Except.ok true
          ∧ filesystem_exists (process_options ns c s w).2.fs
              (process_options.names c s).source_name = Except.ok true
          ∧ (process_options ns c s w).2.fs.read (process_options.names c s).source_name
              = some (w.fs.stored (process_options.names c s).source_name
                  (source_template (process_options.names c s).header_name ns))
          ∧ (w.fs.accepts (process_options.names c s).source_name
                (source_template (process_options.names c s).header_name ns) = true →
              (process_options ns c s w).2.fs.read (process_options.names c s).source_name
                = some (source_template (process_options.names c s).header_name ns))
          ∧ (w.fs.target (process_options.names c s).header_name
                ≠ w.fs.target (process_options.names c s).source_name →
              (process_options ns c s w).2.fs.read (process_options.names c s).header_name
                  = some (w.fs.stored (process_options.names c s).header_name
                      (header_template ns c (process_options.names c s).header_extension))
              ∧ (w.fs.accepts (process_options.names c s).header_name
                    (header_template ns c (process_options.names c s).header_extension)
                    = true →
                  (process_options ns c s w).2.fs.read (process_options.names c s).header_name
                    = some (header_template ns c
                        (process_options.names c s).header_extension)))
          ∧ (w.fs.target (process_options.names c s).header_name
                = w.fs.target (process_options.names c s).source_name →
              (process_options ns c s w).2.fs.read (process_options.names c s).header_name
                = (process_options ns c s w).2.fs.read
                    (process_options.names c s).source_name))
      ∧ (check_file_can_be_created w.fs (process_options.names c s).header_name
            (process_options.names c s).source_name = Except.ok true →
          w.fs.can_open (process_options.names c s).header_name = false
            ∨ w.fs.can_open (process_options.names c s).source_name = false →
          (process_options ns c s w).1 = Except.ok return_code.FAILURE_CREATE_FILE)
      ∧ (∀ what, check_file_can_be_created w.fs (process_options.names c s).header_name
            (process_options.names c s).source_name = Except.error what →
          process_options ns c s w = (Except.error what, w)) := by
  refine ⟨⟨process_options_success_inv ns c s w, ?_⟩, ?_, ?_,
    fun what hc => process_options_throws ns c s w what hc⟩
  · rintro ⟨hc, hh, hs⟩
    rw [process_options_ok ns c s w hc hh hs]
  · intro hok
    obtain ⟨hc, hh, hs⟩ := process_options_success_inv ns c s w hok
    obtain ⟨h1, h2, _, _⟩ := (check_true_iff _ _ _).1 hc
    rw [process_options_ok ns c s w hc hh hs]
    simp only
    refine ⟨names_header_ne_source c s, ?_, ?_, set_read_same _ _ _, ?_, ?_, ?_⟩
    · exact exists_set_of_exists _ _ _ _ (exists_set_same _ _ _ _ h1 rfl)
    · exact exists_set_same _ _ _ _ h2 rfl
    · intro ha
      rw [set_read_same, stored_of_accepts _ _ _ ha]
    · intro ht
      have ht2 : (w.fs.set (process_options.names c s).header_name
          (w.fs.stored (process_options.names c s).header_name
            (header_template ns c (process_options.names c s).header_extension))).target
            (process_options.names c s).header_name
          ≠ (w.fs.set (process_options.names c s).header_name
          (w.fs.stored (process_options.names c s).header_name
            (header_template ns c (process_options.names c s).header_extension))).target
            (process_options.names c s).source_name := ht
      refine ⟨?_, ?_⟩
      · rw [set_read_other _ _ _ _ ht2, set_read_same]
      · intro ha
        rw [set_read_other _ _ _ _ ht2, set_read_same, stored_of_accepts _ _ _ ha]
    · intro ht
      simp only [FileSystem.read, FileSystem.set, ht]
  · intro hc hf
    cases hh : w.fs.can_open (process_options.names c s).header_name with
    | false => rw [process_options_header_fails ns c s w hc hh]
    | true =>
      rcases hf with hf | hf
      · rw [hh] at hf
        exact absurd hf (by decide)
      · rw [process_options_source_fails ns c s w hc hh hf]

/-- C10, as stated, fails in two ways. Where `Bar.hpp` opens on a device that
stores eight characters and `Bar.cpp` cannot be opened, `process_options`
returns 2 and the header file on disk is cut short. In an empty directory
without search permission neither target exists and the header cannot be
opened, and `process_options` throws on line 88 instead of returning
`FAILURE_CREATE_FILE`. -/
theorem process_options_header_truncated :
    (check_file_can_be_created fs_header_short "Bar.hpp" "Bar.cpp" = Except.ok true
      ∧ fs_header_short.can_open "Bar.hpp" = true
      ∧ fs_header_short.can_open "Bar.cpp" = false
      ∧ (process_options "foo" "Bar" "cpp" ⟨fs_header_short, "", ""⟩).1 = Except.ok 2
      ∧ (process_options "foo" "Bar" "cpp" ⟨fs_header_short, "", ""⟩).2.fs.read "Bar.hpp"
          = some "#ifndef "
      ∧ (process_options "foo" "Bar" "cpp" ⟨fs_header_short, "", ""⟩).2.fs.read "Bar.hpp"
          ≠ some (header_template "foo" "Bar" "hpp"))
    ∧ (fs_no_search.read "Bar.hpp" = none
      ∧ fs_no_search.read "Bar.cpp" = none
      ∧ fs_no_search.can_open "Bar.hpp" = false
      ∧ (process_options "foo" "Bar" "cpp" ⟨fs_no_search, "", ""⟩).1
          = Except.error "boost::filesystem::status: Permission denied"
      ∧ (process_options "foo" "Bar" "cpp" ⟨fs_no_search, "", ""⟩).1
          ≠ Except.ok return_code.FAILURE_CREATE_FILE) := by
  refine ⟨⟨rfl, rfl, rfl, rfl, by decide, by decide⟩, ⟨rfl, rfl, rfl, rfl, ?_⟩⟩
  intro h
  cases h

/-- C10, amended: where the existence check answered that neither target
exists: when the header file opens and the source file cannot be opened,
`process_options` returns `FAILURE_CREATE_FILE`, which is 2, and the header
file stays on disk with what the device stored of the rendered header, the
complete text when the device had room; when the header file cannot be
opened, `process_options` returns `FAILURE_CREATE_FILE`, reports the header
failure, and the filesystem is untouched, so no source file was created. -/
theorem process_options_no_rollback (ns c s : String) (w : World)
    (hne : check_file_can_be_created w.fs (process_options.names c s).header_name
      (process_options.names c s).source_name = Except.ok true) :
    (w.fs.can_open (process_options.names c s).header_name = true →
        w.fs.can_open (process_options.names c s).source_name = false →
        (process_options ns c s w).1 = Except.ok return_code.FAILURE_CREATE_FILE
          ∧ return_code.FAILURE_CREATE_FILE = 2
          ∧ (process_options ns c s w).2.fs.read (process_options.names c s).header_name
              = some (w.fs.stored (process_options.names c s).header_name
                  (header_template ns c (process_options.names c s).header_extension))
          ∧ (w.fs.accepts (process_options.names c s).header_name
                (header_template ns c (process_options.names c s).header_extension) = true →
              (process_options ns c s w).2.fs.read (process_options.names c s).header_name
                = some (header_template ns c (process_options.names c s).header_extension))
          ∧ (w.fs.target (process_options.names c s).source_name
                ≠ w.fs.target (process_options.names c s).header_name →
              (process_options ns c s w).2.fs.read (process_options.names c s).source_name
                = none))
      ∧ (w.fs.can_open (process_options.names c s).header_name = false →
        (process_options ns c s w).1 = Except.ok return_code.FAILURE_CREATE_FILE
          ∧ (process_options ns c s w).2.fs = w.fs
          ∧ (process_options ns c s w).2.cerr
              = w.cerr ++ "Failed to create files failed to create header\n") := by
  constructor
  · intro hh hs
    rw [process_options_source_fails ns c s w hne hh hs]
    refine ⟨rfl, rfl, set_read_same _ _ _, ?_, ?_⟩
    · intro ha
      simp only
      rw [set_read_same, stored_of_accepts _ _ _ ha]
    · intro ht
      simp only
      rw [set_read_other _ _ _ _ ht]
      exact ((check_true_iff _ _ _).1 hne).2.2.2
  · intro hh
    rw [process_options_header_fails ns c s w hne hh]
    exact ⟨rfl, rfl, rfl⟩

/-- C10, witness: an empty directory where only `Bar.hpp` can be created. The
run returns 2 and leaves the complete `Bar.hpp` and no `Bar.cpp`. -/
theorem process_options_no_rollback_witness :
    check_file_can_be_created fs_header_only "Bar.hpp" "Bar.cpp" = Except.ok true
      ∧ fs_header_only.can_open "Bar.hpp" = true
      ∧ fs_header_only.can_open "Bar.cpp" = false
      ∧ (process_options "foo" "Bar" "cpp" ⟨fs_header_only, "", ""⟩).1 = Except.ok 2
      ∧ (process_options "foo" "Bar" "cpp" ⟨fs_header_only, "", ""⟩).2.fs.read "Bar.hpp"
          = some "#ifndef FOO_BAR_HPP\n#define FOO_BAR_HPP\n\n\nnamespace foo\n\x7b\n\n\n\x7d\n\n#endif\n\n"
      ∧ (process_options "foo" "Bar" "cpp" ⟨fs_header_only, "", ""⟩).2.fs.read "Bar.cpp"
          = none :=
  have h := (process_options_no_rollback "foo" "Bar" "cpp" ⟨fs_header_only, "", ""⟩
    rfl).1 rfl rfl
  ⟨rfl, rfl, rfl, h.1, (h.2.2.2.1 rfl).trans (by decide), h.2.2.2.2 (by decide)⟩

end Genpair
